import Mathlib

/-!
Shallow embedding of the `Datasources` endpoint class of
`tableauserverclient/server/endpoint/datasources_endpoint.py`.

Each public method is translated to a pure Lean function returning a pair
`(trace, result)`: the list of observable collaborator events (network
requests, upload-session acquisitions, content sniffs, tag updates, file
and stream writes) produced by the call, and the Python return value or
raised exception (`Except`).  External collaborators — the filesystem,
the HTTP transport's parsed responses, the request factory, the filename
helpers — are modelled as oracle parameters, because their code lives in
other modules; everything the endpoint file itself does (validation
order, URL assembly, branching) is translated directly from the source.

Python truthiness of optional strings is modelled by `truthy` (both
`None` and `""` are falsy); Python string interpolation of `None` is
modelled by `pyStr` (rendering `"None"`).
-/

namespace TSC

/-- Python truthiness for an optional string: `None` and `""` are falsy. -/
def truthy : Option String → Bool
  | Option.none => false
  | Option.some s => !(s == "")

/-- Python f-string rendering of an optional string: `None` prints as "None". -/
def pyStr : Option String → String
  | Option.none => "None"
  | Option.some s => s

/-- Python `str(bool)` rendering, as used in f-strings. -/
def pyBool : Bool → String
  | true => "True"
  | false => "False"

/-- `os.path.basename` on a POSIX path: the part after the last slash. -/
def pyBasename (s : String) : String :=
  String.mk ((s.toList.reverse.takeWhile (fun c => !(c == '/'))).reverse)

/-- Index of the last dot of a character list, if any. -/
def lastDotIdx (cs : List Char) : Option Nat :=
  match cs.reverse.findIdx? (fun c => c == '.') with
  | Option.none => Option.none
  | Option.some j => Option.some (cs.length - 1 - j)

/-- `os.path.splitext` on a basename (no directory separators): splits at
the last dot, except when every character before that dot is itself a dot
(so `.cshrc` has no extension). -/
def pySplitext (s : String) : String × String :=
  let cs := s.toList
  match lastDotIdx cs with
  | Option.none => (s, "")
  | Option.some i =>
    if (cs.take i).all (fun c => c == '.') then (s, "")
    else (String.mk (cs.take i), String.mk (cs.drop i))

/-- `DatasourceItem`, restricted to the fields this endpoint file reads. -/
structure DatasourceItem where
  id : Option String
  name : Option String
  project_id : Option String
  owner_id : Option String
  deriving DecidableEq, Repr

/-- `ConnectionItem`, restricted to the field this endpoint file reads. -/
structure ConnectionItem where
  id : Option String
  deriving DecidableEq, Repr

/-- `JobItem`, restricted to its identifier. -/
structure JobItem where
  id : Option String
  deriving DecidableEq, Repr

/-- `ConnectionCredentials` are forwarded opaquely to the request factory. -/
structure ConnectionCredentials where
  raw : String
  deriving DecidableEq, Repr

/-- HTTP verbs used by the endpoint. -/
inductive Verb
  | GET
  | POST
  | PUT
  | PATCH
  | DELETE
  deriving DecidableEq, Repr

/-- Request bodies, as built by the `RequestFactory` collaborator. -/
inductive ReqBody
  | noBody
  | empty
  | dsUpdate (item : DatasourceItem)
  | connUpdate (conn : ConnectionItem)
  | publishSingle (item : DatasourceItem) (filename : String) (contents : List Nat)
      (creds : Option ConnectionCredentials) (conns : Option (List ConnectionItem))
  | publishChunked (item : DatasourceItem)
      (creds : Option ConnectionCredentials) (conns : Option (List ConnectionItem))
  deriving DecidableEq, Repr

/-- Observable collaborator events of one endpoint call, in order. -/
inductive Event
  | net (verb : Verb) (url : String) (body : ReqBody)
  | sniff
  | uploadSession
  | updateTags
  | streamWrite (sid : Nat) (chunk : List Nat)
  | fileWrite (path : String) (data : List (List Nat))
  deriving DecidableEq, Repr

/-- Python exceptions raised by the endpoint methods. -/
inductive TsError
  | valueError (msg : String)
  | missingRequiredField (msg : String)
  | osError (msg : String)
  | internalServerError (code : Nat) (content : String)
  | indexError
  deriving DecidableEq, Repr

/-- The parent `Server` object, reduced to what this endpoint consults:
its base URL, site id, version predicate and publish-mode enumeration. -/
structure ServerModel where
  server_baseurl : String
  site_id : String
  check_at_least_version : String → Bool
  hasPublishMode : String → Bool

/-- `Datasources.baseurl`. -/
def baseurl (srv : ServerModel) : String :=
  srv.server_baseurl ++ "/sites/" ++ srv.site_id ++ "/datasources"

/-- Is an `Except` result a raised exception? -/
def isErr {α : Type} : Except TsError α → Bool
  | Except.error _ => true
  | Except.ok _ => false

/-- A call fails fast: it raises and its event trace is empty. -/
def failsFast {α : Type} (r : List Event × Except TsError α) : Prop :=
  r.1 = [] ∧ isErr r.2 = true

/-- `Datasources.get_by_id`.  `parsed` is the oracle for
`DatasourceItem.from_response` applied to the GET response. -/
def get_by_id (srv : ServerModel) (datasource_id : Option String)
    (parsed : List DatasourceItem) : List Event × Except TsError DatasourceItem :=
  if !(truthy datasource_id) then
    ([], Except.error (TsError.valueError "Datasource ID undefined."))
  else
    ([Event.net Verb.GET (baseurl srv ++ "/" ++ pyStr datasource_id) ReqBody.noBody],
      match parsed with
      | [] => Except.error TsError.indexError
      | x :: _ => Except.ok x)

/-- `Datasources.delete`. -/
def delete (srv : ServerModel) (datasource_id : Option String) :
    List Event × Except TsError Unit :=
  if !(truthy datasource_id) then
    ([], Except.error (TsError.valueError "Datasource ID undefined."))
  else
    ([Event.net Verb.DELETE (baseurl srv ++ "/" ++ pyStr datasource_id) ReqBody.noBody],
      Except.ok ())

/-- `Datasources.populate_connections`: validates the id, then only installs
a fetcher closure on the item — no network event during the call itself. -/
def populate_connections (datasource_item : DatasourceItem) :
    List Event × Except TsError Unit :=
  if !(truthy datasource_item.id) then
    ([], Except.error (TsError.missingRequiredField
      "Datasource item missing ID. Datasource must be retrieved from server first."))
  else
    ([], Except.ok ())

/-- `Datasources.populate_revisions`: same shape as `populate_connections`. -/
def populate_revisions (datasource_item : DatasourceItem) :
    List Event × Except TsError Unit :=
  if !(truthy datasource_item.id) then
    ([], Except.error (TsError.missingRequiredField
      "Datasource item missing ID. Datasource must be retrieved from server first."))
  else
    ([], Except.ok ())

/-- `Datasources.update`.  `parse_common_elements` is the oracle for parsing
the PUT response into the copied item. -/
def update (srv : ServerModel) (datasource_item : DatasourceItem)
    (parse_common_elements : DatasourceItem → DatasourceItem) :
    List Event × Except TsError DatasourceItem :=
  if !(truthy datasource_item.id) then
    ([], Except.error (TsError.missingRequiredField
      "Datasource item missing ID. Datasource must be retrieved from server first."))
  else if truthy datasource_item.owner_id && !(truthy datasource_item.project_id)
      && !(srv.check_at_least_version "3.15") then
    ([], Except.error (TsError.missingRequiredField
      "Attempting to set new owner but datasource is missing Project ID.In versions before 3.15 the project id must be included to update the owner."))
  else
    ([Event.updateTags,
      Event.net Verb.PUT (baseurl srv ++ "/" ++ pyStr datasource_item.id)
        (ReqBody.dsUpdate datasource_item)],
      Except.ok (parse_common_elements datasource_item))

/-- `Datasources.update_connection`.  `parsed` is the oracle for
`ConnectionItem.from_response` applied to the PUT response.  No identifier
validation is performed by the source. -/
def update_connection (srv : ServerModel) (datasource_item : DatasourceItem)
    (connection_item : ConnectionItem) (parsed : List ConnectionItem) :
    List Event × Except TsError (Option ConnectionItem) :=
  ([Event.net Verb.PUT
      (baseurl srv ++ "/" ++ pyStr datasource_item.id ++ "/connections/"
        ++ pyStr connection_item.id)
      (ReqBody.connUpdate connection_item)],
    match parsed with
    | [] => Except.ok Option.none
    | _ =>
      match parsed.filter (fun x => x.id == connection_item.id) with
      | [] => Except.error TsError.indexError
      | c :: _ => Except.ok (Option.some c))

/-- Argument to `refresh` / `create_extract` / `delete_extract`: a
`DatasourceItem` or a raw id string. -/
inductive ItemOrStr
  | item (it : DatasourceItem)
  | str (s : String)
  deriving DecidableEq, Repr

/-- `getattr(datasource_item, "id", datasource_item)` as interpolated into
the URL: an item contributes its (possibly `None`) id, a raw string itself. -/
def getattr_id : ItemOrStr → String
  | ItemOrStr.item it => pyStr it.id
  | ItemOrStr.str s => s

/-- `Datasources.refresh`.  `jobs` is the oracle for `JobItem.from_response`
on the POST response.  The `incremental` parameter is accepted but unused
by the source (its request is commented out).  No identifier validation. -/
def refresh (srv : ServerModel) (datasource_item : ItemOrStr)
    (incremental : Bool) (jobs : List JobItem) :
    List Event × Except TsError JobItem :=
  let _ := incremental
  ([Event.net Verb.POST (baseurl srv ++ "/" ++ getattr_id datasource_item ++ "/refresh")
      ReqBody.empty],
    match jobs with
    | [] => Except.error TsError.indexError
    | j :: _ => Except.ok j)

/-- `Datasources.create_extract`.  No identifier validation. -/
def create_extract (srv : ServerModel) (datasource_item : ItemOrStr)
    (encrypt : Bool) (jobs : List JobItem) :
    List Event × Except TsError JobItem :=
  ([Event.net Verb.POST
      (baseurl srv ++ "/" ++ getattr_id datasource_item ++ "/createExtract?encrypt="
        ++ pyBool encrypt)
      ReqBody.empty],
    match jobs with
    | [] => Except.error TsError.indexError
    | j :: _ => Except.ok j)

/-- `Datasources.delete_extract`.  No identifier validation. -/
def delete_extract (srv : ServerModel) (datasource_item : ItemOrStr) :
    List Event × Except TsError Unit :=
  ([Event.net Verb.POST
      (baseurl srv ++ "/" ++ getattr_id datasource_item ++ "/deleteExtract")
      ReqBody.empty],
    Except.ok ())

/-- `Datasources.delete_revision`: explicit `is None` checks (an empty
string passes them), then a slash-joined URL. -/
def delete_revision (srv : ServerModel) (datasource_id : Option String)
    (revision_number : Option String) : List Event × Except TsError Unit :=
  if datasource_id.isNone || revision_number.isNone then
    ([], Except.error (TsError.valueError ""))
  else
    ([Event.net Verb.DELETE
        (String.intercalate "/"
          [baseurl srv, pyStr datasource_id, "revisions", pyStr revision_number])
        ReqBody.noBody],
      Except.ok ())

/-- An in-memory binary stream passed to `publish`, reduced to what the
source observes of it: the sniffed content type (`get_file_type`), its
size (`get_file_object_size`) and its full contents (`read`). -/
structure FileObjectModel where
  fileType : String
  objSize : Nat
  contents : List Nat
  deriving DecidableEq, Repr

/-- The `file` argument of `publish`: a filesystem path or a stream. -/
inductive PathOrFile
  | path (p : String)
  | stream (obj : FileObjectModel)
  deriving DecidableEq, Repr

/-- Filesystem oracle: `os.path.isfile`, `os.path.getsize`, `open(...).read()`. -/
structure FileSys where
  isfile : String → Bool
  getsize : String → Nat
  readFile : String → List Nat

/-- The configuration module collaborator: `config.FILESIZE_LIMIT_MB`,
`ALLOWED_FILE_EXTENSIONS` and `BYTES_PER_MB`. -/
structure ConfigModel where
  FILESIZE_LIMIT_MB : Nat
  allowed_file_extensions : List String
  bytes_per_mb : Nat

/-- The server error raised by the HTTP layer (`InternalServerError`). -/
structure ServerErr where
  code : Nat
  content : String
  deriving DecidableEq, Repr

/-- Parsed content of a successful publish response: the job items and the
datasource items `from_response` would extract. -/
structure PublishResponse where
  jobs : List JobItem
  datasources : List DatasourceItem
  deriving DecidableEq, Repr

/-- Return value of `publish`: a job handle or a datasource item. -/
inductive PublishOutcome
  | job (j : JobItem)
  | datasource (d : DatasourceItem)
  deriving DecidableEq, Repr

/-- Environment of one `publish` call: the filesystem, the configuration,
the session id the file-upload collaborator would return, and the outcome
of the publishing POST (`Except` for a raised `InternalServerError`). -/
structure PublishEnv where
  fs : FileSys
  cfg : ConfigModel
  upload_session_id : String
  postResult : Except ServerErr PublishResponse

/-- The publish URL before any upload-session parameter:
`{baseurl}?datasourceType={ext}&{mode.lower()}=true[&asJob=true]`. -/
def publishUrl (srv : ServerModel) (file_extension : String) (mode : Option String)
    (as_job : Bool) : String :=
  let url := baseurl srv ++ "?datasourceType=" ++ file_extension ++ "&"
    ++ (pyStr mode).toLower ++ "=true"
  if as_job then url ++ "&asJob=true" else url

/-- Name-defaulting of the path branch: if the item has no (truthy) name,
it is set to the stem of the file's basename. -/
def defaultedItem (item : DatasourceItem) (filename : String) : DatasourceItem :=
  if !(truthy item.name) then
    { item with name := Option.some (pySplitext filename).1 }
  else item

/-- The bytes read for a single-shot publish: `open(file).read()` for a
path, `file.read()` for a stream. -/
def readContents (env : PublishEnv) : PathOrFile → List Nat
  | PathOrFile.path p => env.fs.readFile p
  | PathOrFile.stream obj => obj.contents

/-- Interpretation of the publishing POST's response: the 504 timeout
rewrite for synchronous calls, re-raise otherwise, and first-item
extraction (job or datasource) on success. -/
def publishOutcomeOf (env : PublishEnv) (as_job : Bool) :
    Except TsError PublishOutcome :=
  match env.postResult with
  | Except.error err =>
    if err.code == 504 && !as_job then
      Except.error (TsError.internalServerError err.code
        "Timeout error while publishing. Please use asynchronous publishing to avoid timeouts.")
    else
      Except.error (TsError.internalServerError err.code err.content)
  | Except.ok resp =>
    if as_job then
      match resp.jobs with
      | [] => Except.error TsError.indexError
      | j :: _ => Except.ok (PublishOutcome.job j)
    else
      match resp.datasources with
      | [] => Except.error TsError.indexError
      | d :: _ => Except.ok (PublishOutcome.datasource d)

/-- The part of `publish` after filename/extension/size resolution: mode
validation, the size-threshold decision between the chunked path (session
acquisition, session id as query parameter, chunked body) and the
single-shot path (full contents in the body), then the POST. -/
def publishCommon (srv : ServerModel) (env : PublishEnv) (item : DatasourceItem)
    (file : PathOrFile) (mode : Option String) (creds : Option ConnectionCredentials)
    (conns : Option (List ConnectionItem)) (as_job : Bool)
    (filename file_extension : String) (file_size : Nat) (preEvents : List Event) :
    List Event × Except TsError PublishOutcome :=
  if !(truthy mode) || !(srv.hasPublishMode (pyStr mode)) then
    (preEvents, Except.error (TsError.valueError ("Invalid mode defined: " ++ pyStr mode)))
  else if env.cfg.FILESIZE_LIMIT_MB * env.cfg.bytes_per_mb ≤ file_size then
    (preEvents ++ [Event.uploadSession,
        Event.net Verb.POST
          (publishUrl srv file_extension mode as_job ++ "&uploadSessionId="
            ++ env.upload_session_id)
          (ReqBody.publishChunked item creds conns)],
      publishOutcomeOf env as_job)
  else
    (preEvents ++ [Event.net Verb.POST (publishUrl srv file_extension mode as_job)
        (ReqBody.publishSingle item filename (readContents env file) creds conns)],
      publishOutcomeOf env as_job)

/-- `Datasources.publish`.  Path inputs: existence check, basename /
extension / size resolution, name defaulting, extension allow-list check.
Stream inputs: name requirement, then content sniffing (`Event.sniff`)
mapping zip to `tdsx` and xml to `tds`.  Then the common tail. -/
def publish (srv : ServerModel) (env : PublishEnv) (datasource_item : DatasourceItem)
    (file : PathOrFile) (mode : Option String)
    (connection_credentials : Option ConnectionCredentials)
    (connections : Option (List ConnectionItem)) (as_job : Bool) :
    List Event × Except TsError PublishOutcome :=
  match file with
  | PathOrFile.path p =>
    if !(env.fs.isfile p) then
      ([], Except.error (TsError.osError "File path does not lead to an existing file."))
    else
      let filename := pyBasename p
      let file_extension := (pySplitext filename).2.drop 1
      let file_size := env.fs.getsize p
      let item1 := defaultedItem datasource_item filename
      if !(env.cfg.allowed_file_extensions.contains file_extension) then
        ([], Except.error (TsError.valueError
          ("Only " ++ String.intercalate ", " env.cfg.allowed_file_extensions
            ++ " files can be published as datasources.")))
      else
        publishCommon srv env item1 file mode connection_credentials connections as_job
          filename file_extension file_size []
  | PathOrFile.stream obj =>
    if !(truthy datasource_item.name) then
      ([], Except.error (TsError.valueError
        "Datasource item must have a name when passing a file object"))
    else if obj.fileType == "zip" then
      publishCommon srv env datasource_item file mode connection_credentials connections
        as_job (pyStr datasource_item.name ++ ".tdsx") "tdsx" obj.objSize [Event.sniff]
    else if obj.fileType == "xml" then
      publishCommon srv env datasource_item file mode connection_credentials connections
        as_job (pyStr datasource_item.name ++ ".tds") "tds" obj.objSize [Event.sniff]
    else
      ([Event.sniff], Except.error (TsError.valueError
        ("Unsupported file type " ++ obj.fileType)))

/-- The `filepath` argument of a download: a destination path or a writable
stream (identified by an object id). -/
inductive FileDest
  | path (p : String)
  | stream (sid : Nat)
  deriving DecidableEq, Repr

/-- Return value of a download: the same stream object, or an absolute path. -/
inductive DownloadReturn
  | stream (sid : Nat)
  | path (p : String)
  deriving DecidableEq, Repr

/-- The streamed GET response: its content-disposition header and its
`iter_content` chunking oracle (argument: chunk size in bytes). -/
structure StreamedResponse where
  contentDisposition : String
  iter_content : Nat → List (List Nat)

/-- Filename-helper collaborators of the download path:
`Message.get_filename` (with `failobj=""`), `fix_filename`, `to_filename`,
`make_download_path`, `os.path.abspath`. -/
structure DownloadEnv where
  get_filename : String → String
  fix_filename : String → String
  to_filename : String → String
  make_download_path : Option String → String → String
  abspath : String → String

/-- The download URL: content endpoint, revision-qualified when a revision
number is given, with the extract-suppression query flag. -/
def downloadUrl (srv : ServerModel) (datasource_id : Option String)
    (revision_number : Option String) (include_extract : Bool) : String :=
  let url := match revision_number with
    | Option.none => baseurl srv ++ "/" ++ pyStr datasource_id ++ "/content"
    | Option.some rev =>
        baseurl srv ++ "/" ++ pyStr datasource_id ++ "/revisions/" ++ rev ++ "/content"
  if !include_extract then url ++ "?includeExtract=False" else url

/-- The original `filepath` argument as passed on to `make_download_path`:
a path contributes itself, `None` stays `None` (a stream never reaches it). -/
def destPathOpt : Option FileDest → Option String
  | Option.some (FileDest.path p) => Option.some p
  | _ => Option.none

/-- `Datasources.download_revision`.  Id validation, URL assembly, then
either 1KB-chunk writes into the caller's stream (returning that stream) or
content-disposition filename recovery and a file write (returning the
absolute path). -/
def download_revision (srv : ServerModel) (denv : DownloadEnv)
    (datasource_id : Option String) (revision_number : Option String)
    (filepath : Option FileDest) (include_extract : Bool)
    (resp : StreamedResponse) : List Event × Except TsError DownloadReturn :=
  if !(truthy datasource_id) then
    ([], Except.error (TsError.valueError "Datasource ID undefined."))
  else
    let url := downloadUrl srv datasource_id revision_number include_extract
    match filepath with
    | Option.some (FileDest.stream sid) =>
      (Event.net Verb.GET url ReqBody.noBody ::
          (resp.iter_content 1024).map (fun c => Event.streamWrite sid c),
        Except.ok (DownloadReturn.stream sid))
    | fp =>
      let filename := denv.to_filename
        (pyBasename (denv.fix_filename (denv.get_filename resp.contentDisposition)))
      let download_path := denv.make_download_path (destPathOpt fp) filename
      ([Event.net Verb.GET url ReqBody.noBody,
          Event.fileWrite download_path (resp.iter_content 1024)],
        Except.ok (DownloadReturn.path (denv.abspath download_path)))

/-- `Datasources.download`: delegates to `download_revision` with revision
`None`. -/
def download (srv : ServerModel) (denv : DownloadEnv) (datasource_id : Option String)
    (filepath : Option FileDest) (include_extract : Bool)
    (resp : StreamedResponse) : List Event × Except TsError DownloadReturn :=
  download_revision srv denv datasource_id Option.none filepath include_extract resp

/-! Concrete fixtures used by witnesses and counterexamples. -/

/-- A concrete server. -/
def cSrv : ServerModel :=
  { server_baseurl := "http://srv"
    site_id := "site1"
    check_at_least_version := fun v => v == "3.15"
    hasPublishMode := fun m => m == "CreateNew" || m == "Overwrite" || m == "Append" }

/-- A concrete server whose version check fails for every threshold. -/
def cSrvOld : ServerModel :=
  { server_baseurl := "http://srv"
    site_id := "site1"
    check_at_least_version := fun _ => false
    hasPublishMode := fun m => m == "CreateNew" || m == "Overwrite" || m == "Append" }

/-- A concrete job item. -/
def cJob : JobItem := { id := Option.some "job-1" }

/-- A concrete datasource item with all fields set. -/
def cDS : DatasourceItem :=
  { id := Option.some "ds-1", name := Option.some "ds", project_id := Option.some "p1",
    owner_id := Option.some "o1" }

/-- A concrete datasource item with no fields set. -/
def cEmptyDS : DatasourceItem :=
  { id := Option.none, name := Option.none, project_id := Option.none,
    owner_id := Option.none }

/-- A concrete filesystem holding one small file. -/
def cFSSmall : FileSys :=
  { isfile := fun _ => true, getsize := fun _ => 10, readFile := fun _ => [1, 2, 3] }

/-- A concrete filesystem holding one file at the size threshold. -/
def cFSBig : FileSys :=
  { isfile := fun _ => true, getsize := fun _ => 67108864, readFile := fun _ => [1, 2, 3] }

/-- A concrete configuration (64MB threshold, the usual extension set). -/
def cCfg : ConfigModel :=
  { FILESIZE_LIMIT_MB := 64
    allowed_file_extensions := ["tds", "tdsx", "tde", "hyper", "parquet"]
    bytes_per_mb := 1048576 }

/-- A concrete successful publish response. -/
def cResp : PublishResponse := { jobs := [cJob], datasources := [cDS] }

/-- A concrete publish environment around a small file and a success. -/
def cEnvSmall : PublishEnv :=
  { fs := cFSSmall, cfg := cCfg, upload_session_id := "sess-1",
    postResult := Except.ok cResp }

/-- A concrete publish environment around a threshold-sized file. -/
def cEnvBig : PublishEnv :=
  { fs := cFSBig, cfg := cCfg, upload_session_id := "sess-1",
    postResult := Except.ok cResp }

/-- A concrete publish environment whose POST raises a 504. -/
def cEnv504 : PublishEnv :=
  { fs := cFSSmall, cfg := cCfg, upload_session_id := "sess-1",
    postResult := Except.error { code := 504, content := "gateway timeout" } }

/-- A concrete publish environment whose POST raises a 500. -/
def cEnv500 : PublishEnv :=
  { fs := cFSSmall, cfg := cCfg, upload_session_id := "sess-1",
    postResult := Except.error { code := 500, content := "boom" } }

/-- A concrete download-helper environment. -/
def cDEnv : DownloadEnv :=
  { get_filename := fun _ => "report.tdsx"
    fix_filename := fun s => s
    to_filename := fun s => s
    make_download_path := fun fp name =>
      match fp with
      | Option.none => name
      | Option.some d => d ++ "/" ++ name
    abspath := fun s => "/abs/" ++ s }

/-- A concrete streamed response with two chunks. -/
def cSResp : StreamedResponse :=
  { contentDisposition := "attachment; filename=report.tdsx"
    iter_content := fun _ => [[7, 7], [8]] }

/-- A concrete item carrying an owner id but no project id. -/
def cOwnerDS : DatasourceItem :=
  { id := Option.some "ds-1", name := Option.some "ds", project_id := Option.none,
    owner_id := Option.some "o1" }

/-- A concrete zip-sniffed stream. -/
def cStream : FileObjectModel := { fileType := "zip", objSize := 10, contents := [9] }

/-! Theorems settling the claims. -/

/-- Claim C10: `download(datasource_id, filepath, include_extract)` is
observationally equal to
`download_revision(datasource_id, None, filepath, include_extract)` — same
events, same result — because `download` delegates verbatim. -/
theorem C10_download_delegates (srv : ServerModel) (denv : DownloadEnv)
    (datasource_id : Option String) (filepath : Option FileDest)
    (include_extract : Bool) (resp : StreamedResponse) :
    download srv denv datasource_id filepath include_extract resp
      = download_revision srv denv datasource_id Option.none filepath
          include_extract resp := rfl

/-- Claim C9: `delete_revision` with a `None` datasource id or revision
number raises a `ValueError` immediately, with no network request issued. -/
theorem C9_delete_revision_none (srv : ServerModel)
    (datasource_id revision_number : Option String)
    (h : datasource_id = Option.none ∨ revision_number = Option.none) :
    delete_revision srv datasource_id revision_number
      = ([], Except.error (TsError.valueError "")) := by
  rcases h with h | h <;> subst h <;> simp [delete_revision]

/-- Witness for C9 at the spec's scenario `delete_revision(None, "5")`. -/
theorem C9_witness :
    delete_revision cSrv Option.none (Option.some "5")
      = ([], Except.error (TsError.valueError "")) :=
  C9_delete_revision_none cSrv Option.none (Option.some "5") (Or.inl rfl)

/-- Claim C8: `refresh` on an item with id "abc123" (or on the raw string
"abc123") POSTs to `{baseurl}/datasources/abc123/refresh` with an empty
body, and returns the first job of the parsed response, so the returned
handle's id is the response's job id. -/
theorem C8_refresh_scenario (srv : ServerModel) (name proj owner : Option String)
    (incremental : Bool) (j : JobItem) (rest : List JobItem) :
    refresh srv (ItemOrStr.item
        { id := Option.some "abc123", name := name, project_id := proj,
          owner_id := owner }) incremental (j :: rest)
      = ([Event.net Verb.POST (baseurl srv ++ "/" ++ "abc123" ++ "/refresh")
            ReqBody.empty],
          Except.ok j)
    ∧ refresh srv (ItemOrStr.str "abc123") incremental (j :: rest)
      = ([Event.net Verb.POST (baseurl srv ++ "/" ++ "abc123" ++ "/refresh")
            ReqBody.empty],
          Except.ok j) := by
  constructor <;> rfl

/-- Claim C1 counterexample: `refresh` called with the empty (falsy) raw
id "" does not raise an invalid-argument or missing-required-field error:
it issues a POST (to a URL with an empty id segment) and returns normally,
refuting the claim that every listed operation fails fast on a falsy id. -/
theorem C1_counterexample :
    (refresh cSrv (ItemOrStr.str "") false [cJob]).1
      = [Event.net Verb.POST "http://srv/sites/site1/datasources//refresh"
          ReqBody.empty]
    ∧ (refresh cSrv (ItemOrStr.str "") false [cJob]).2 = Except.ok cJob :=
  ⟨rfl, rfl⟩

/-- Claim C1, amended: with an empty or falsy identifier, `delete`,
`get_by_id`, `update`, `download_revision`, `populate_connections` and
`populate_revisions` raise an invalid-argument or missing-required-field
error with zero collaborator events; but `update_connection`, `refresh`,
`create_extract` and `delete_extract` perform no identifier validation and
issue their network call regardless. -/
theorem C1_amended_fail_fast (srv : ServerModel) (id0 : Option String)
    (h : truthy id0 = false) (item : DatasourceItem)
    (hitem : truthy item.id = false) (parsed : List DatasourceItem)
    (pce : DatasourceItem → DatasourceItem) (denv : DownloadEnv)
    (rev : Option String) (fp : Option FileDest) (ie : Bool)
    (resp : StreamedResponse) (conn : ConnectionItem)
    (pconn : List ConnectionItem) (incremental encrypt : Bool)
    (jobs : List JobItem) :
    failsFast (delete srv id0)
    ∧ failsFast (get_by_id srv id0 parsed)
    ∧ failsFast (update srv item pce)
    ∧ failsFast (download_revision srv denv id0 rev fp ie resp)
    ∧ failsFast (populate_connections item)
    ∧ failsFast (populate_revisions item)
    ∧ (update_connection srv item conn pconn).1 ≠ []
    ∧ (refresh srv (ItemOrStr.item item) incremental jobs).1 ≠ []
    ∧ (create_extract srv (ItemOrStr.item item) encrypt jobs).1 ≠ []
    ∧ (delete_extract srv (ItemOrStr.item item)).1 ≠ [] := by
  refine ⟨?_, ?_, ?_, ?_, ?_, ?_, ?_, ?_, ?_, ?_⟩
  · simp [delete, failsFast, isErr, h]
  · simp [get_by_id, failsFast, isErr, h]
  · simp [update, failsFast, isErr, hitem]
  · simp [download_revision, failsFast, isErr, h]
  · simp [populate_connections, failsFast, isErr, hitem]
  · simp [populate_revisions, failsFast, isErr, hitem]
  · simp [update_connection]
  · simp [refresh]
  · simp [create_extract]
  · simp [delete_extract]

/-- Witness for the amended C1 at concrete falsy inputs. -/
theorem C1_amended_witness :
    failsFast (delete cSrv Option.none)
    ∧ failsFast (get_by_id cSrv Option.none [])
    ∧ failsFast (update cSrv cEmptyDS id)
    ∧ failsFast (download_revision cSrv cDEnv Option.none Option.none Option.none
        true cSResp)
    ∧ failsFast (populate_connections cEmptyDS)
    ∧ failsFast (populate_revisions cEmptyDS)
    ∧ (update_connection cSrv cEmptyDS { id := Option.none } []).1 ≠ []
    ∧ (refresh cSrv (ItemOrStr.item cEmptyDS) false []).1 ≠ []
    ∧ (create_extract cSrv (ItemOrStr.item cEmptyDS) false []).1 ≠ []
    ∧ (delete_extract cSrv (ItemOrStr.item cEmptyDS)).1 ≠ [] :=
  C1_amended_fail_fast cSrv Option.none rfl cEmptyDS rfl [] id cDEnv Option.none
    Option.none true cSResp { id := Option.none } [] false false []

/-- Claim C3: `update` on an item with an id, an owner id and no project
id raises a missing-required-field error with no collaborator event when
the server is below version 3.15, and proceeds to the PUT (after the tag
update) without a project id when the server is at least 3.15. -/
theorem C3_update_owner_version_gate (srv : ServerModel) (item : DatasourceItem)
    (pce : DatasourceItem → DatasourceItem) (hid : truthy item.id = true)
    (howner : truthy item.owner_id = true) (hproj : truthy item.project_id = false) :
    (srv.check_at_least_version "3.15" = false →
      (update srv item pce).1 = []
      ∧ (update srv item pce).2 = Except.error (TsError.missingRequiredField
          "Attempting to set new owner but datasource is missing Project ID.In versions before 3.15 the project id must be included to update the owner."))
    ∧ (srv.check_at_least_version "3.15" = true →
      (update srv item pce).2 = Except.ok (pce item)
      ∧ (update srv item pce).1
          = [Event.updateTags,
             Event.net Verb.PUT (baseurl srv ++ "/" ++ pyStr item.id)
               (ReqBody.dsUpdate item)]) := by
  constructor <;> intro hv <;> simp [update, hid, howner, hproj, hv]

/-- Witness for C3 on servers below and at version 3.15. -/
theorem C3_witness :
    (update cSrvOld cOwnerDS id).1 = []
    ∧ (update cSrvOld cOwnerDS id).2 = Except.error (TsError.missingRequiredField
        "Attempting to set new owner but datasource is missing Project ID.In versions before 3.15 the project id must be included to update the owner.")
    ∧ (update cSrv cOwnerDS id).2 = Except.ok (id cOwnerDS)
    ∧ (update cSrv cOwnerDS id).1
        = [Event.updateTags,
           Event.net Verb.PUT (baseurl cSrv ++ "/" ++ pyStr cOwnerDS.id)
             (ReqBody.dsUpdate cOwnerDS)] :=
  ⟨((C3_update_owner_version_gate cSrvOld cOwnerDS id rfl rfl rfl).1 rfl).1,
   ((C3_update_owner_version_gate cSrvOld cOwnerDS id rfl rfl rfl).1 rfl).2,
   ((C3_update_owner_version_gate cSrv cOwnerDS id rfl rfl rfl).2 rfl).1,
   ((C3_update_owner_version_gate cSrv cOwnerDS id rfl rfl rfl).2 rfl).2⟩

/-- Claim C4: `get_by_id` with a non-empty id raises the not-found signal
(the empty-list indexing error) when the response parses to zero items,
and returns the first item when it parses to one or more. -/
theorem C4_get_by_id_first_or_not_found (srv : ServerModel) (id0 : Option String)
    (h : truthy id0 = true) (parsed : List DatasourceItem) :
    (parsed = [] → (get_by_id srv id0 parsed).2 = Except.error TsError.indexError)
    ∧ ∀ x xs, parsed = x :: xs → (get_by_id srv id0 parsed).2 = Except.ok x := by
  constructor
  · intro hp
    subst hp
    simp [get_by_id, h]
  · intro x xs hp
    subst hp
    simp [get_by_id, h]

/-- Witness for C4 on an empty and a two-item parsed response. -/
theorem C4_witness :
    (get_by_id cSrv (Option.some "ds-1") []).2 = Except.error TsError.indexError
    ∧ (get_by_id cSrv (Option.some "ds-1") [cDS, cEmptyDS]).2 = Except.ok cDS :=
  ⟨(C4_get_by_id_first_or_not_found cSrv (Option.some "ds-1") rfl []).1 rfl,
   (C4_get_by_id_first_or_not_found cSrv (Option.some "ds-1") rfl
      [cDS, cEmptyDS]).2 cDS [cEmptyDS] rfl⟩

/-- Claim C5: `download_revision` with a non-empty id and a writable
stream destination writes every 1KB response chunk to that stream and
returns the very same stream; with no stream destination it recovers the
filename from the sanitized content-disposition header, writes the content
to the path computed from that filename and the optional filepath, and
returns the absolute path. -/
theorem C5_download_destination_split (srv : ServerModel) (denv : DownloadEnv)
    (id0 rev : Option String) (ie : Bool) (resp : StreamedResponse)
    (h : truthy id0 = true) :
    (∀ sid,
      download_revision srv denv id0 rev (Option.some (FileDest.stream sid)) ie resp
        = (Event.net Verb.GET (downloadUrl srv id0 rev ie) ReqBody.noBody ::
             (resp.iter_content 1024).map (fun c => Event.streamWrite sid c),
           Except.ok (DownloadReturn.stream sid)))
    ∧ (∀ fp, (∀ sid, fp ≠ Option.some (FileDest.stream sid)) →
      download_revision srv denv id0 rev fp ie resp
        = ([Event.net Verb.GET (downloadUrl srv id0 rev ie) ReqBody.noBody,
            Event.fileWrite
              (denv.make_download_path (destPathOpt fp)
                (denv.to_filename (pyBasename
                  (denv.fix_filename (denv.get_filename resp.contentDisposition)))))
              (resp.iter_content 1024)],
           Except.ok (DownloadReturn.path (denv.abspath
             (denv.make_download_path (destPathOpt fp)
               (denv.to_filename (pyBasename
                 (denv.fix_filename (denv.get_filename resp.contentDisposition))))))))) := by
  constructor
  · intro sid
    simp [download_revision, h]
  · intro fp hfp
    match fp with
    | Option.none => simp [download_revision, h]
    | Option.some (FileDest.path p) => simp [download_revision, h]
    | Option.some (FileDest.stream sid) => exact absurd rfl (hfp sid)

/-- Witness for C5 with a stream destination and with no destination. -/
theorem C5_witness :
    download_revision cSrv cDEnv (Option.some "ds-1") Option.none
        (Option.some (FileDest.stream 5)) true cSResp
      = (Event.net Verb.GET (downloadUrl cSrv (Option.some "ds-1") Option.none true)
            ReqBody.noBody ::
           (cSResp.iter_content 1024).map (fun c => Event.streamWrite 5 c),
         Except.ok (DownloadReturn.stream 5))
    ∧ download_revision cSrv cDEnv (Option.some "ds-1") Option.none Option.none
        true cSResp
      = ([Event.net Verb.GET (downloadUrl cSrv (Option.some "ds-1") Option.none true)
            ReqBody.noBody,
          Event.fileWrite
            (cDEnv.make_download_path (destPathOpt Option.none)
              (cDEnv.to_filename (pyBasename
                (cDEnv.fix_filename (cDEnv.get_filename cSResp.contentDisposition)))))
            (cSResp.iter_content 1024)],
         Except.ok (DownloadReturn.path (cDEnv.abspath
           (cDEnv.make_download_path (destPathOpt Option.none)
             (cDEnv.to_filename (pyBasename
               (cDEnv.fix_filename (cDEnv.get_filename cSResp.contentDisposition)))))))) :=
  ⟨(C5_download_destination_split cSrv cDEnv (Option.some "ds-1") Option.none true
      cSResp rfl).1 5,
   (C5_download_destination_split cSrv cDEnv (Option.some "ds-1") Option.none true
      cSResp rfl).2 Option.none (fun _ hc => Option.noConfusion hc)⟩

/-- Under a valid mode, `publishCommon` below the size threshold builds the
single-shot request from the full contents. -/
theorem publishCommon_below (srv : ServerModel) (env : PublishEnv)
    (item : DatasourceItem) (file : PathOrFile) (mode : Option String)
    (creds : Option ConnectionCredentials) (conns : Option (List ConnectionItem))
    (as_job : Bool) (filename file_extension : String) (file_size : Nat)
    (preEvents : List Event) (hmode : truthy mode = true)
    (hhas : srv.hasPublishMode (pyStr mode) = true)
    (hsz : file_size < env.cfg.FILESIZE_LIMIT_MB * env.cfg.bytes_per_mb) :
    publishCommon srv env item file mode creds conns as_job filename file_extension
        file_size preEvents
      = (preEvents ++ [Event.net Verb.POST (publishUrl srv file_extension mode as_job)
          (ReqBody.publishSingle item filename (readContents env file) creds conns)],
        publishOutcomeOf env as_job) := by
  have h1 : (!(truthy mode) || !(srv.hasPublishMode (pyStr mode))) = false := by
    rw [hmode, hhas]
    rfl
  unfold publishCommon
  rw [h1]
  simp only [Bool.false_eq_true, if_false]
  rw [if_neg (Nat.not_le.mpr hsz)]

/-- Under a valid mode, `publishCommon` at or above the size threshold
first acquires an upload session, appends its id to the URL, and builds
the chunked request. -/
theorem publishCommon_above (srv : ServerModel) (env : PublishEnv)
    (item : DatasourceItem) (file : PathOrFile) (mode : Option String)
    (creds : Option ConnectionCredentials) (conns : Option (List ConnectionItem))
    (as_job : Bool) (filename file_extension : String) (file_size : Nat)
    (preEvents : List Event) (hmode : truthy mode = true)
    (hhas : srv.hasPublishMode (pyStr mode) = true)
    (hsz : env.cfg.FILESIZE_LIMIT_MB * env.cfg.bytes_per_mb ≤ file_size) :
    publishCommon srv env item file mode creds conns as_job filename file_extension
        file_size preEvents
      = (preEvents ++ [Event.uploadSession,
          Event.net Verb.POST
            (publishUrl srv file_extension mode as_job ++ "&uploadSessionId="
              ++ env.upload_session_id)
            (ReqBody.publishChunked item creds conns)],
        publishOutcomeOf env as_job) := by
  have h1 : (!(truthy mode) || !(srv.hasPublishMode (pyStr mode))) = false := by
    rw [hmode, hhas]
    rfl
  unfold publishCommon
  rw [h1]
  simp only [Bool.false_eq_true, if_false]
  rw [if_pos hsz]

/-- Claim C2: for a publish call that passes validation, a resolved file
size strictly below `FILESIZE_LIMIT_MB` megabytes yields a single POST
whose body carries the full file contents (single-shot multipart), while a
size at or above the threshold first obtains an upload session from the
file-upload collaborator, appends the session id to the URL as a query
parameter, and POSTs a chunked multipart body — for path inputs and for
both recognized stream inputs. -/
theorem C2_publish_size_threshold (srv : ServerModel) (env : PublishEnv)
    (item : DatasourceItem) (mode : Option String)
    (creds : Option ConnectionCredentials) (conns : Option (List ConnectionItem))
    (as_job : Bool) (hmode : truthy mode = true)
    (hhas : srv.hasPublishMode (pyStr mode) = true) :
    (∀ p, env.fs.isfile p = true →
      env.cfg.allowed_file_extensions.contains
          ((pySplitext (pyBasename p)).2.drop 1) = true →
      (env.fs.getsize p < env.cfg.FILESIZE_LIMIT_MB * env.cfg.bytes_per_mb →
        (publish srv env item (PathOrFile.path p) mode creds conns as_job).1
          = [Event.net Verb.POST
              (publishUrl srv ((pySplitext (pyBasename p)).2.drop 1) mode as_job)
              (ReqBody.publishSingle (defaultedItem item (pyBasename p))
                (pyBasename p) (env.fs.readFile p) creds conns)])
      ∧ (env.cfg.FILESIZE_LIMIT_MB * env.cfg.bytes_per_mb ≤ env.fs.getsize p →
        (publish srv env item (PathOrFile.path p) mode creds conns as_job).1
          = [Event.uploadSession,
             Event.net Verb.POST
               (publishUrl srv ((pySplitext (pyBasename p)).2.drop 1) mode as_job
                 ++ "&uploadSessionId=" ++ env.upload_session_id)
               (ReqBody.publishChunked (defaultedItem item (pyBasename p))
                 creds conns)]))
    ∧ (∀ obj, truthy item.name = true → obj.fileType = "zip" →
      (obj.objSize < env.cfg.FILESIZE_LIMIT_MB * env.cfg.bytes_per_mb →
        (publish srv env item (PathOrFile.stream obj) mode creds conns as_job).1
          = [Event.sniff,
             Event.net Verb.POST (publishUrl srv "tdsx" mode as_job)
               (ReqBody.publishSingle item (pyStr item.name ++ ".tdsx")
                 obj.contents creds conns)])
      ∧ (env.cfg.FILESIZE_LIMIT_MB * env.cfg.bytes_per_mb ≤ obj.objSize →
        (publish srv env item (PathOrFile.stream obj) mode creds conns as_job).1
          = [Event.sniff, Event.uploadSession,
             Event.net Verb.POST
               (publishUrl srv "tdsx" mode as_job ++ "&uploadSessionId="
                 ++ env.upload_session_id)
               (ReqBody.publishChunked item creds conns)]))
    ∧ (∀ obj, truthy item.name = true → obj.fileType = "xml" →
      (obj.objSize < env.cfg.FILESIZE_LIMIT_MB * env.cfg.bytes_per_mb →
        (publish srv env item (PathOrFile.stream obj) mode creds conns as_job).1
          = [Event.sniff,
             Event.net Verb.POST (publishUrl srv "tds" mode as_job)
               (ReqBody.publishSingle item (pyStr item.name ++ ".tds")
                 obj.contents creds conns)])
      ∧ (env.cfg.FILESIZE_LIMIT_MB * env.cfg.bytes_per_mb ≤ obj.objSize →
        (publish srv env item (PathOrFile.stream obj) mode creds conns as_job).1
          = [Event.sniff, Event.uploadSession,
             Event.net Verb.POST
               (publishUrl srv "tds" mode as_job ++ "&uploadSessionId="
                 ++ env.upload_session_id)
               (ReqBody.publishChunked item creds conns)])) := by
  refine ⟨?_, ?_, ?_⟩
  · intro p hf hext
    constructor
    · intro hsz
      simp only [publish, hf, Bool.not_true, Bool.false_eq_true, if_false, hext,
        publishCommon_below srv env (defaultedItem item (pyBasename p))
          (PathOrFile.path p) mode creds conns as_job (pyBasename p)
          ((pySplitext (pyBasename p)).2.drop 1) (env.fs.getsize p) [] hmode hhas hsz]
      rfl
    · intro hsz
      simp only [publish, hf, Bool.not_true, Bool.false_eq_true, if_false, hext,
        publishCommon_above srv env (defaultedItem item (pyBasename p))
          (PathOrFile.path p) mode creds conns as_job (pyBasename p)
          ((pySplitext (pyBasename p)).2.drop 1) (env.fs.getsize p) [] hmode hhas hsz]
      rfl
  · intro obj hn htype
    constructor
    · intro hsz
      simp only [publish, hn, Bool.not_true, Bool.false_eq_true, if_false, htype,
        beq_self_eq_true, if_true,
        publishCommon_below srv env item (PathOrFile.stream obj) mode creds conns
          as_job (pyStr item.name ++ ".tdsx") "tdsx" obj.objSize [Event.sniff]
          hmode hhas hsz]
      rfl
    · intro hsz
      simp only [publish, hn, Bool.not_true, Bool.false_eq_true, if_false, htype,
        beq_self_eq_true, if_true,
        publishCommon_above srv env item (PathOrFile.stream obj) mode creds conns
          as_job (pyStr item.name ++ ".tdsx") "tdsx" obj.objSize [Event.sniff]
          hmode hhas hsz]
      rfl
  · intro obj hn htype
    constructor
    · intro hsz
      simp only [publish, hn, Bool.not_true, Bool.false_eq_true, if_false, htype,
        beq_self_eq_true, if_true,
        publishCommon_below srv env item (PathOrFile.stream obj) mode creds conns
          as_job (pyStr item.name ++ ".tds") "tds" obj.objSize [Event.sniff]
          hmode hhas hsz]
      rfl
    · intro hsz
      simp only [publish, hn, Bool.not_true, Bool.false_eq_true, if_false, htype,
        beq_self_eq_true, if_true,
        publishCommon_above srv env item (PathOrFile.stream obj) mode creds conns
          as_job (pyStr item.name ++ ".tds") "tds" obj.objSize [Event.sniff]
          hmode hhas hsz]
      rfl

/-- Witness for C2 at a small file (10 bytes) and a threshold-sized file
(64 * 1048576 bytes). -/
theorem C2_witness :
    (publish cSrv cEnvSmall cDS (PathOrFile.path "x.tds") (Option.some "CreateNew")
        Option.none Option.none false).1
      = [Event.net Verb.POST
          (publishUrl cSrv ((pySplitext (pyBasename "x.tds")).2.drop 1)
            (Option.some "CreateNew") false)
          (ReqBody.publishSingle (defaultedItem cDS (pyBasename "x.tds"))
            (pyBasename "x.tds") (cEnvSmall.fs.readFile "x.tds") Option.none
            Option.none)]
    ∧ (publish cSrv cEnvBig cDS (PathOrFile.path "x.tds") (Option.some "CreateNew")
        Option.none Option.none false).1
      = [Event.uploadSession,
         Event.net Verb.POST
           (publishUrl cSrv ((pySplitext (pyBasename "x.tds")).2.drop 1)
             (Option.some "CreateNew") false ++ "&uploadSessionId="
             ++ cEnvBig.upload_session_id)
           (ReqBody.publishChunked (defaultedItem cDS (pyBasename "x.tds"))
             Option.none Option.none)] :=
  ⟨((C2_publish_size_threshold cSrv cEnvSmall cDS (Option.some "CreateNew")
      Option.none Option.none false rfl rfl).1 "x.tds" rfl (by decide)).1 (by decide),
   ((C2_publish_size_threshold cSrv cEnvBig cDS (Option.some "CreateNew")
      Option.none Option.none false rfl rfl).1 "x.tds" rfl (by decide)).2 (by decide)⟩

/-- Claim C6: a publish from a path whose extension is outside the allowed
set raises a `ValueError` with zero collaborator events (no network call),
and a publish from a stream when the item has no name raises a
`ValueError` with zero collaborator events — in particular before any
content sniffing. -/
theorem C6_publish_validation (srv : ServerModel) (env : PublishEnv)
    (item : DatasourceItem) (mode : Option String)
    (creds : Option ConnectionCredentials) (conns : Option (List ConnectionItem))
    (as_job : Bool) :
    (∀ p, env.fs.isfile p = true →
      (pySplitext (pyBasename p)).2.drop 1 ∉ env.cfg.allowed_file_extensions →
      (publish srv env item (PathOrFile.path p) mode creds conns as_job).1 = []
      ∧ (publish srv env item (PathOrFile.path p) mode creds conns as_job).2
          = Except.error (TsError.valueError
              ("Only " ++ String.intercalate ", " env.cfg.allowed_file_extensions
                ++ " files can be published as datasources.")))
    ∧ (∀ obj, truthy item.name = false →
      (publish srv env item (PathOrFile.stream obj) mode creds conns as_job).1 = []
      ∧ (publish srv env item (PathOrFile.stream obj) mode creds conns as_job).2
          = Except.error (TsError.valueError
              "Datasource item must have a name when passing a file object")) := by
  constructor
  · intro p hf hext
    constructor <;> simp [publish, hf, hext]
  · intro obj hn
    constructor <;> simp [publish, hn]

/-- Witness for C6 at a disallowed extension and a nameless stream item. -/
theorem C6_witness :
    (publish cSrv cEnvSmall cDS (PathOrFile.path "x.xyz") (Option.some "CreateNew")
        Option.none Option.none false).1 = []
    ∧ (publish cSrv cEnvSmall cDS (PathOrFile.path "x.xyz") (Option.some "CreateNew")
        Option.none Option.none false).2
        = Except.error (TsError.valueError
            ("Only " ++ String.intercalate ", " cEnvSmall.cfg.allowed_file_extensions
              ++ " files can be published as datasources."))
    ∧ (publish cSrv cEnvSmall cEmptyDS (PathOrFile.stream cStream)
        (Option.some "CreateNew") Option.none Option.none false).1 = []
    ∧ (publish cSrv cEnvSmall cEmptyDS (PathOrFile.stream cStream)
        (Option.some "CreateNew") Option.none Option.none false).2
        = Except.error (TsError.valueError
            "Datasource item must have a name when passing a file object") :=
  ⟨((C6_publish_validation cSrv cEnvSmall cDS (Option.some "CreateNew") Option.none
      Option.none false).1 "x.xyz" rfl (by decide)).1,
   ((C6_publish_validation cSrv cEnvSmall cDS (Option.some "CreateNew") Option.none
      Option.none false).1 "x.xyz" rfl (by decide)).2,
   ((C6_publish_validation cSrv cEnvSmall cEmptyDS (Option.some "CreateNew")
      Option.none Option.none false).2 cStream rfl).1,
   ((C6_publish_validation cSrv cEnvSmall cEmptyDS (Option.some "CreateNew")
      Option.none Option.none false).2 cStream rfl).2⟩

/-- Claim C7: when the publishing POST raises an internal server error,
a 504 during a synchronous (`as_job = false`) publish is re-raised with
its message replaced by the asynchronous-publishing guidance; any other
code, or `as_job = true`, re-raises the error with its code and content
unmodified. -/
theorem C7_publish_timeout_guidance (srv : ServerModel) (env : PublishEnv)
    (item : DatasourceItem) (p : String) (mode : Option String)
    (creds : Option ConnectionCredentials) (conns : Option (List ConnectionItem))
    (as_job : Bool) (err : ServerErr) (hf : env.fs.isfile p = true)
    (hext : env.cfg.allowed_file_extensions.contains
        ((pySplitext (pyBasename p)).2.drop 1) = true)
    (hmode : truthy mode = true) (hhas : srv.hasPublishMode (pyStr mode) = true)
    (hpost : env.postResult = Except.error err) :
    (err.code = 504 → as_job = false →
      (publish srv env item (PathOrFile.path p) mode creds conns as_job).2
        = Except.error (TsError.internalServerError err.code
            "Timeout error while publishing. Please use asynchronous publishing to avoid timeouts."))
    ∧ (err.code ≠ 504 ∨ as_job = true →
      (publish srv env item (PathOrFile.path p) mode creds conns as_job).2
        = Except.error (TsError.internalServerError err.code err.content)) := by
  have key : (publish srv env item (PathOrFile.path p) mode creds conns as_job).2
      = publishOutcomeOf env as_job := by
    rcases Nat.lt_or_ge (env.fs.getsize p)
        (env.cfg.FILESIZE_LIMIT_MB * env.cfg.bytes_per_mb) with hsz | hsz
    · simp only [publish, hf, Bool.not_true, Bool.false_eq_true, if_false, hext,
        publishCommon_below srv env (defaultedItem item (pyBasename p))
          (PathOrFile.path p) mode creds conns as_job (pyBasename p)
          ((pySplitext (pyBasename p)).2.drop 1) (env.fs.getsize p) [] hmode hhas hsz]
    · simp only [publish, hf, Bool.not_true, Bool.false_eq_true, if_false, hext,
        publishCommon_above srv env (defaultedItem item (pyBasename p))
          (PathOrFile.path p) mode creds conns as_job (pyBasename p)
          ((pySplitext (pyBasename p)).2.drop 1) (env.fs.getsize p) [] hmode hhas hsz]
  constructor
  · intro h504 hjob
    rw [key]
    simp [publishOutcomeOf, hpost, h504, hjob]
  · intro h
    rw [key]
    rcases h with h | h <;> simp [publishOutcomeOf, hpost, h]

/-- Witness for C7 at a 504 synchronous publish and a 500 publish. -/
theorem C7_witness :
    (publish cSrv cEnv504 cDS (PathOrFile.path "x.tds") (Option.some "CreateNew")
        Option.none Option.none false).2
      = Except.error (TsError.internalServerError 504
          "Timeout error while publishing. Please use asynchronous publishing to avoid timeouts.")
    ∧ (publish cSrv cEnv500 cDS (PathOrFile.path "x.tds") (Option.some "CreateNew")
        Option.none Option.none false).2
      = Except.error (TsError.internalServerError 500 "boom") :=
  ⟨(C7_publish_timeout_guidance cSrv cEnv504 cDS "x.tds" (Option.some "CreateNew")
      Option.none Option.none false { code := 504, content := "gateway timeout" }
      rfl (by decide) rfl rfl rfl).1 rfl rfl,
   (C7_publish_timeout_guidance cSrv cEnv500 cDS "x.tds" (Option.some "CreateNew")
      Option.none Option.none false { code := 500, content := "boom" }
      rfl (by decide) rfl rfl rfl).2 (Or.inl (by decide))⟩

end TSC
